import Mathlib

/-!
Verification of the supportbot repository (src/support_api.py) against its
natural-language specification.

The Python script is shallowly embedded below.  Network responses (Microsoft
Graph, OpenAI, Telegram) are modelled as explicit inputs: a status code plus
the decoded JSON payload, with missing JSON fields as `Option`.  The global
dictionaries `email_store` and `ai_responses` become association lists with
Python-dict get/set semantics, bundled into a `BotState`.  Python code that
can raise (a `KeyError`/`IndexError` on a malformed provider payload) is
embedded as `Except String`.  The HTML-to-text conversion performed by
BeautifulSoup (`soup.get_text()`) is an opaque parameter `g` throughout, since
no claim depends on its content.
-/

namespace SupportBot

/-- One entry of the Graph API `value` array, as the fields the script reads:
`from.emailAddress.name`, `from.emailAddress.address`, `subject`,
`receivedDateTime`, `body.content`.  A `none` field models a missing JSON key
(Python `dict.get` returning the default). -/
structure Email where
  fromName : Option String
  fromAddress : Option String
  subject : Option String
  receivedDateTime : Option String
  bodyContent : Option String
deriving DecidableEq

/-- A Python dict with string keys, as an association list in insertion
order. -/
abbrev Dict (α : Type) := List (String × α)

/-- Python `d.get(k)` / `d[k]` lookup. -/
def dictGet {α : Type} (l : Dict α) (k : String) : Option α :=
  match l with
  | [] => none
  | (k', v) :: t => if k' = k then some v else dictGet t k

/-- Python `d[k] = v`: replace in place if the key exists, append otherwise. -/
def dictSet {α : Type} (l : Dict α) (k : String) (v : α) : Dict α :=
  match l with
  | [] => [(k, v)]
  | (k', v') :: t => if k' = k then (k, v) :: t else (k', v') :: dictSet t k v

/-- The keys of a dict, in insertion order. -/
def dictKeys {α : Type} (l : Dict α) : List String :=
  l.map Prod.fst

/-- Python `enumerate(xs, start=i)`. -/
def enumerate1 {α : Type} : Nat → List α → List (Nat × α)
  | _, [] => []
  | i, a :: t => (i, a) :: enumerate1 (i + 1) t

/-- Python `html.escape` on one character (quote=True default: `&`, `<`, `>`,
`"` and the apostrophe, `Char.ofNat 39`, are replaced). -/
def escapeHtmlChar (c : Char) : String :=
  if c = '&' then "&amp;"
  else if c = '<' then "&lt;"
  else if c = '>' then "&gt;"
  else if c = '"' then "&quot;"
  else if c = Char.ofNat 39 then "&#x27;"
  else String.singleton c

/-- Python `html.escape(s)`. -/
def escapeHtml (s : String) : String :=
  String.join (s.toList.map escapeHtmlChar)

/-- `fetch_unread_emails` (src/support_api.py lines 51-62): on HTTP 200,
return the `value` array with messages whose sender address equals the
configured mailbox address filtered out; on any other status return `None`
(embedded as `none`). -/
def fetch_unread_emails (mailbox : String) (status : Nat) (value : List Email) :
    Option (List Email) :=
  if status = 200 then
    some (value.filter (fun email => email.fromAddress != some mailbox))
  else
    none

/-- The record stored in `email_store` for one email (lines 102-106). -/
structure EmailData where
  sender : String
  subject : String
  body : String
deriving DecidableEq

/-- The per-email record built in the fetch loop (lines 91-106): field
defaults applied, body converted from HTML by `g`. -/
def storeEntry (g : String → String) (email : Email) : EmailData :=
  { sender := email.fromName.getD "Unknown Sender"
    subject := email.subject.getD "No Subject"
    body := g (email.bodyContent.getD "No Preview Available") }

/-- The contents of `email_store` after the fetch loop (lines 88-106):
cleared, then `str(index) -> record` for `enumerate(emails[:5], start=1)`. -/
def fillStore (g : String → String) (emails : List Email) : Dict EmailData :=
  (enumerate1 1 (emails.take 5)).map (fun p => (toString p.1, storeEntry g p.2))

/-- Python string slicing `s[:n]`: the first `n` characters (code points). -/
def pyTake (s : String) (n : Nat) : String :=
  (s.toList.take n).asString

/-- The chat message built for one email (lines 109-116).  User-controlled
fields are concatenated as-is with the literal HTML markup; the body preview
is truncated to 500 characters. -/
def buildEmailMessage (g : String → String) (index : Nat) (email : Email) : String :=
  let subject := email.subject.getD "No Subject"
  let sender_name := email.fromName.getD "Unknown Sender"
  let sender_email := email.fromAddress.getD "Unknown Email"
  let received_time := email.receivedDateTime.getD "Unknown Time"
  let body_text := g (email.bodyContent.getD "No Preview Available")
  "<b>📩 New Email Received</b> [#" ++ toString index ++ "]\n" ++
  "📌 <b>From:</b> " ++ sender_name ++ " (" ++ sender_email ++ ")\n" ++
  "📌 <b>Subject:</b> " ++ subject ++ "\n" ++
  "🕒 <b>Received:</b> " ++ received_time ++ "\n" ++
  "📝 <b>Preview:</b> " ++ pyTake body_text 500 ++ "...\n\n" ++
  "✍️ Reply with: <code>/suggest_response " ++ toString index ++ " Your message</code>"

/-- Modelled from the spec: the same message with every user-controlled field
(sender name, sender address, subject, body preview) escaped for HTML mode
before concatenation, the literal markup left unescaped.  Used only to compare
`buildEmailMessage` against the spec's escaping requirement. -/
def buildEmailMessageSpec (g : String → String) (index : Nat) (email : Email) : String :=
  let subject := escapeHtml (email.subject.getD "No Subject")
  let sender_name := escapeHtml (email.fromName.getD "Unknown Sender")
  let sender_email := escapeHtml (email.fromAddress.getD "Unknown Email")
  let received_time := email.receivedDateTime.getD "Unknown Time"
  let body_text := escapeHtml (g (email.bodyContent.getD "No Preview Available"))
  "<b>📩 New Email Received</b> [#" ++ toString index ++ "]\n" ++
  "📌 <b>From:</b> " ++ sender_name ++ " (" ++ sender_email ++ ")\n" ++
  "📌 <b>Subject:</b> " ++ subject ++ "\n" ++
  "🕒 <b>Received:</b> " ++ received_time ++ "\n" ++
  "📝 <b>Preview:</b> " ++ pyTake body_text 500 ++ "...\n\n" ++
  "✍️ Reply with: <code>/suggest_response " ++ toString index ++ " Your message</code>"

/-- The two module-level dictionaries (lines 28-29): `email_store` and
`ai_responses`. -/
structure BotState where
  email_store : Dict EmailData
  ai_responses : Dict String
deriving DecidableEq

/-- The text sent when no emails are shown (line 129). -/
def noEmailsNotice : String := "<b>📭 No new unread emails found.</b>"

/-- `send_email_to_telegram` (lines 78-129) as its effect on the stores plus
the list of message texts sent to the chat.  `access_token` is the result of
`get_access_token` (`None` on failure); Python truthiness makes both `None`
and the empty string skip the whole body, and makes a `None` fetch result and
an empty list take the same `else` branch. -/
def send_email_to_telegram (g : String → String) (mailbox : String)
    (access_token : Option String) (status : Nat) (value : List Email)
    (st : BotState) : BotState × List String :=
  match access_token with
  | none => (st, [])
  | some tok =>
    if tok = "" then (st, [])
    else
      match fetch_unread_emails mailbox status value with
      | none => (st, [noEmailsNotice])
      | some emails =>
        if emails = [] then (st, [noEmailsNotice])
        else
          ({ st with email_store := fillStore g emails },
           (enumerate1 1 (emails.take 5)).map (fun p => buildEmailMessage g p.1 p.2))

/-- `send_to_telegram` (lines 65-75): the `text` field of the payload it posts
is `html.escape(message)` — the whole message, markup included. -/
def send_to_telegram_text (message : String) : String :=
  escapeHtml message

/-- The `message.content` object of one element of the OpenAI `choices`
array; `none` models a missing `content` key. -/
structure ChoiceMsg where
  content : Option String
deriving DecidableEq

/-- One element of the OpenAI `choices` array; `none` models a missing
`message` key. -/
structure Choice where
  message : Option ChoiceMsg
deriving DecidableEq

/-- An OpenAI chat-completions response: HTTP status plus the decoded
`choices` array (`none` models a missing `choices` key). -/
structure AIResponse where
  status : Nat
  choices : Option (List Choice)
deriving DecidableEq

/-- The fallback string returned on a non-200 OpenAI status (line 141). -/
def aiFallback : String := "⚠️ AI Response Unavailable."

/-- `generate_ai_response` (lines 132-141).  On status 200 the code indexes
`response.json()["choices"][0]["message"]["content"]` unguarded, so a missing
key or empty array raises — embedded as `Except.error` carrying the Python
exception name; a present content is returned `html.escape`d.  On any other
status the fallback string is returned. -/
def generate_ai_response (prompt : String) (r : AIResponse) : Except String String :=
  if r.status = 200 then
    match r.choices with
    | none => Except.error "KeyError: choices"
    | some choices =>
      match choices.head? with
      | none => Except.error "IndexError: list index out of range"
      | some choice =>
        match choice.message with
        | none => Except.error "KeyError: message"
        | some msg =>
          match msg.content with
          | none => Except.error "KeyError: content"
          | some text =>
            let _ := prompt
            Except.ok (escapeHtml text)
  else
    Except.ok aiFallback

/-- The usage message of `/suggest_response` (line 154). -/
def suggestUsageMsg : String :=
  "⚠️ Specify an email number & message.\nExample: `/suggest_response 2 Apologize for the delay`"

/-- The invalid-handle message of `/suggest_response` (line 161). -/
def invalidEmailMsg : String := "⚠️ Invalid email number. Use `/fetch_emails` first."

/-- The usage message of `/improve_response` (line 176). -/
def improveUsageMsg : String :=
  "⚠️ Specify an email number & improvement.\nExample: `/improve_response 2 Make it more formal`"

/-- The no-draft message of `/improve_response` (line 183). -/
def noDraftMsg : String := "⚠️ No AI response found for this email. Use `/suggest_response` first."

/-- The visible outcome of a `/suggest_response` or `/improve_response`
command: the reply sent, or the Python exception propagated out of the
handler. -/
inductive CmdResult where
  | usageError (msg : String)
  | invalidEmail (msg : String)
  | noDraft (msg : String)
  | replied (text : String)
  | raised (e : String)
deriving DecidableEq

/-- The prompt built by `suggest_response` (line 164). -/
def suggestPrompt (data : EmailData) (user_message : String) : String :=
  "Company: NextTradeWave.com\n\nEmail Subject: " ++ data.subject ++
  "\n\nEmail Body: " ++ data.body ++ "\n\nUser Instruction: " ++ user_message

/-- `suggest_response` (lines 150-170) as its effect on the stores plus its
visible outcome.  `args` is the command's token list; `ai` is the OpenAI
response the provider would return for the built prompt. -/
def suggest_response (st : BotState) (args : List String) (ai : AIResponse) :
    BotState × CmdResult :=
  match args with
  | email_index :: r :: rest =>
    let user_message := String.intercalate " " (r :: rest)
    match dictGet st.email_store email_index with
    | none => (st, CmdResult.invalidEmail invalidEmailMsg)
    | some email_data =>
      match generate_ai_response (suggestPrompt email_data user_message) ai with
      | Except.error e => (st, CmdResult.raised e)
      | Except.ok ai_response =>
        ({ st with ai_responses := dictSet st.ai_responses email_index ai_response },
         CmdResult.replied ("🤖 <b>AI Suggested Reply:</b>\n" ++ ai_response ++
           "\n\n🔄 Reply with: `/improve_response " ++ email_index ++ " Your adjustment`"))
  | _ => (st, CmdResult.usageError suggestUsageMsg)

/-- The prompt built by `improve_response` (line 186). -/
def improvePrompt (previous improvement : String) : String :=
  "Previous AI response: " ++ previous ++ "\n\nUser Improvement: " ++ improvement ++
  "\n\nGenerate a refined version."

/-- `improve_response` (lines 172-191) as its effect on the stores plus its
visible outcome. -/
def improve_response (st : BotState) (args : List String) (ai : AIResponse) :
    BotState × CmdResult :=
  match args with
  | email_index :: r :: rest =>
    let improvement := String.intercalate " " (r :: rest)
    match dictGet st.ai_responses email_index with
    | none => (st, CmdResult.noDraft noDraftMsg)
    | some previous =>
      match generate_ai_response (improvePrompt previous improvement) ai with
      | Except.error e => (st, CmdResult.raised e)
      | Except.ok new_response =>
        ({ st with ai_responses := dictSet st.ai_responses email_index new_response },
         CmdResult.replied ("🤖 <b>Refined AI Response:</b>\n" ++ new_response))
  | _ => (st, CmdResult.usageError improveUsageMsg)

/-- One primitive step of the `send_email_to_telegram` coroutine body, at the
granularity relevant to the event loop: synchronous store mutations versus
`await` suspension points. -/
inductive Step where
  | clearStore
  | insertEntry (key : String)
  | awaitSend
  | awaitNotice
deriving DecidableEq

/-- Whether a step is a store insertion. -/
def Step.isInsert : Step → Bool
  | Step.insertEntry _ => true
  | _ => false

/-- Whether a step is an `await` (a suspension point of the event loop). -/
def Step.isSuspension : Step → Bool
  | Step.awaitSend => true
  | Step.awaitNotice => true
  | _ => false

/-- The step trace of `send_email_to_telegram` (lines 78-129): on a non-empty
batch the store is cleared, then for each of the first five emails the entry
is inserted and the chat send is `await`ed — the `await` sits inside the
loop, between consecutive insertions. -/
def sendEmailSteps (mailbox : String) (access_token : Option String)
    (status : Nat) (value : List Email) : List Step :=
  match access_token with
  | none => []
  | some tok =>
    if tok = "" then []
    else
      match fetch_unread_emails mailbox status value with
      | none => [Step.awaitNotice]
      | some emails =>
        if emails = [] then [Step.awaitNotice]
        else
          Step.clearStore ::
            (enumerate1 1 (emails.take 5)).flatMap
              (fun p => [Step.insertEntry (toString p.1), Step.awaitSend])

/-- `true` when some suspension point is later followed by a store insertion:
exactly the situation in which a reader scheduled at that suspension point
observes a partially filled batch. -/
def hasSuspensionBeforeInsert : List Step → Bool
  | [] => false
  | s :: t => (s.isSuspension && t.any Step.isInsert) || hasSuspensionBeforeInsert t

/-! ## Helper lemmas about the embedded operations -/

theorem enumerate1_map_fst {α : Type} (k : Nat) (l : List α) :
    (enumerate1 k l).map Prod.fst = List.range' k l.length := by
  induction l generalizing k with
  | nil => simp [enumerate1]
  | cons a t ih => simp [enumerate1, List.range'_succ, ih]

theorem enumerate1_map_snd {α : Type} (k : Nat) (l : List α) :
    (enumerate1 k l).map Prod.snd = l := by
  induction l generalizing k with
  | nil => simp [enumerate1]
  | cons a t ih => simp [enumerate1, ih]

theorem dictGet_eq_none_iff {α : Type} (l : Dict α) (k : String) :
    dictGet l k = none ↔ k ∉ dictKeys l := by
  induction l with
  | nil => simp [dictGet, dictKeys]
  | cons p t ih =>
    obtain ⟨k', v⟩ := p
    by_cases h : k' = k
    · subst h
      simp [dictGet, dictKeys]
    · simp [dictGet, dictKeys, h, ih, Ne.symm h]

theorem dictKeys_fillStore (g : String → String) (emails : List Email) :
    dictKeys (fillStore g emails) = (List.range' 1 (min 5 emails.length)).map toString := by
  unfold fillStore dictKeys
  rw [List.map_map]
  have h : (Prod.fst ∘ fun p : Nat × Email => (toString p.1, storeEntry g p.2)) =
      (toString ∘ Prod.fst) := rfl
  rw [h, ← List.map_map, enumerate1_map_fst, List.length_take]

theorem fillStore_map_snd (g : String → String) (emails : List Email) :
    (fillStore g emails).map Prod.snd = (emails.take 5).map (storeEntry g) := by
  unfold fillStore
  rw [List.map_map]
  have h : (Prod.snd ∘ fun p : Nat × Email => (toString p.1, storeEntry g p.2)) =
      (storeEntry g ∘ Prod.snd) := rfl
  rw [h, ← List.map_map, enumerate1_map_snd]

theorem suggest_not_found (st : BotState) (token r : String) (rest : List String)
    (ai : AIResponse) (h : dictGet st.email_store token = none) :
    suggest_response st (token :: r :: rest) ai = (st, CmdResult.invalidEmail invalidEmailMsg) := by
  simp [suggest_response, h]

theorem improve_not_found (st : BotState) (token r : String) (rest : List String)
    (ai : AIResponse) (h : dictGet st.ai_responses token = none) :
    improve_response st (token :: r :: rest) ai = (st, CmdResult.noDraft noDraftMsg) := by
  simp [improve_response, h]

theorem send_email_store_on_success (g : String → String) (mailbox tok : String)
    (status : Nat) (value emails : List Email) (st : BotState) (htok : tok ≠ "")
    (hf : fetch_unread_emails mailbox status value = some emails) (hne : emails ≠ []) :
    (send_email_to_telegram g mailbox (some tok) status value st).1 =
      { st with email_store := fillStore g emails } := by
  simp [send_email_to_telegram, hf, htok, hne]

/-! ## Concrete fixtures -/

/-- A customer email used as a test fixture. -/
def eA : Email :=
  { fromName := some "Alice"
    fromAddress := some "alice@example.com"
    subject := some "Order issue"
    receivedDateTime := some "2026-01-01T10:00:00Z"
    bodyContent := some "Hello, my order is late." }

/-- A second customer email fixture. -/
def eB : Email :=
  { fromName := some "Bob"
    fromAddress := some "bob@example.com"
    subject := some "Login problem"
    receivedDateTime := some "2026-01-01T11:00:00Z"
    bodyContent := some "I cannot log in." }

/-- A third customer email fixture. -/
def eC : Email :=
  { fromName := some "Carol"
    fromAddress := some "carol@example.com"
    subject := some "Refund"
    receivedDateTime := some "2026-01-01T12:00:00Z"
    bodyContent := some "Please refund me." }

/-- Fourth fixture email, for a batch of more than five. -/
def e4 : Email :=
  { fromName := some "Dan"
    fromAddress := some "dan@example.com"
    subject := some "S4"
    receivedDateTime := none
    bodyContent := some "b4" }

/-- Fifth fixture email. -/
def e5 : Email :=
  { fromName := some "Eli"
    fromAddress := some "eli@example.com"
    subject := some "S5"
    receivedDateTime := none
    bodyContent := some "b5" }

/-- Sixth fixture email. -/
def e6 : Email :=
  { fromName := some "Fay"
    fromAddress := some "fay@example.com"
    subject := some "S6"
    receivedDateTime := none
    bodyContent := some "b6" }

/-- An email sent by the mailbox itself (self mail). -/
def eSelf : Email :=
  { fromName := some "Support"
    fromAddress := some "support@nexttradewave.com"
    subject := some "Re: Order issue"
    receivedDateTime := some "2026-01-01T13:00:00Z"
    bodyContent := some "We are on it." }

/-- An email whose subject contains HTML metacharacters. -/
def eMeta : Email :=
  { fromName := some "Eve"
    fromAddress := some "eve@example.com"
    subject := some "<b>hello</b>"
    receivedDateTime := some "2026-01-02T09:00:00Z"
    bodyContent := some "body" }

/-- The configured mailbox address fixture (`EMAIL_ADDRESS`). -/
def mb : String := "support@nexttradewave.com"

/-- A successful OpenAI response fixture. -/
def aiOK : AIResponse :=
  { status := 200
    choices := some [{ message := some { content := some "Thanks, we will check." } }] }

/-- A second successful OpenAI response fixture. -/
def aiOK2 : AIResponse :=
  { status := 200
    choices := some [{ message := some { content := some "Refined text." } }] }

/-- The empty initial state of the two module-level dictionaries. -/
def st0 : BotState := { email_store := [], ai_responses := [] }

/-- A batch of six provider messages, none of them self mail. -/
def emails6 : List Email := [eA, eB, eC, e4, e5, e6]

/-- State after fetching the three-email batch from the empty state. -/
def st1 : BotState := (send_email_to_telegram (fun s => s) mb (some "tok") 200 [eA, eB, eC] st0).1

/-- State after `/suggest_response 2 apologize` on `st1`. -/
def st2 : BotState := (suggest_response st1 ["2", "apologize"] aiOK).1

/-- State after fetching the same three-email batch again on `st2`. -/
def st3 : BotState := (send_email_to_telegram (fun s => s) mb (some "tok") 200 [eA, eB, eC] st2).1

/-! ## Claims -/

/-- Claim C1: after the second fetch of the same three-email batch, the draft
stored for handle 2 by the first batch's suggest is still in `ai_responses`
(the fetch clears only `email_store`), and an `/improve_response 2 …` with no
suggest in the new batch succeeds on the stale draft instead of being
rejected with the no-draft error.  This evaluates the code at the spec's own
end-to-end scenario and exhibits the divergence. -/
theorem C1_stale_draft_survives_fetch :
    dictKeys st3.email_store = ["1", "2", "3"] ∧
    dictGet st3.ai_responses "2" = some (escapeHtml "Thanks, we will check.") ∧
    (improve_response st3 ["2", "make", "it", "formal"] aiOK2).2 =
      CmdResult.replied ("🤖 <b>Refined AI Response:</b>\n" ++ escapeHtml "Refined text.") :=
  ⟨rfl, rfl, rfl⟩

/-- Claim C2 counterexample: a fetch whose provider result has six messages
(none filtered) stores handles `"1"`–`"5"` only; handle `"6"` is absent, so
the store does not hold handles exactly `1..N` for `N = 6`. -/
theorem C2_counterexample :
    fetch_unread_emails mb 200 emails6 = some emails6 ∧
    emails6.length = 6 ∧
    dictKeys ((send_email_to_telegram (fun s => s) mb (some "tok") 200 emails6 st0).1.email_store) =
      ["1", "2", "3", "4", "5"] ∧
    dictGet ((send_email_to_telegram (fun s => s) mb (some "tok") 200 emails6 st0).1.email_store) "6" =
      none :=
  ⟨rfl, rfl, rfl, rfl⟩

/-- Claim C2 (amended): for every fetch whose filtered provider result is a
non-empty list of `N` messages, the store ends up holding handles exactly
`1..min 5 N` as decimal strings, in the provider's return order, with values
the records of the first `min 5 N` messages in order; any other handle string
looks up to `none`, and a suggest for it replies with the invalid-number
error and changes no state. -/
theorem C2_handles_are_one_to_min_five (g : String → String) (mailbox tok : String)
    (status : Nat) (value emails : List Email) (st : BotState) (htok : tok ≠ "")
    (hf : fetch_unread_emails mailbox status value = some emails) (hne : emails ≠ []) :
    dictKeys ((send_email_to_telegram g mailbox (some tok) status value st).1.email_store) =
      (List.range' 1 (min 5 emails.length)).map toString ∧
    ((send_email_to_telegram g mailbox (some tok) status value st).1.email_store).map Prod.snd =
      (emails.take 5).map (storeEntry g) ∧
    ∀ token, token ∉ (List.range' 1 (min 5 emails.length)).map toString →
      dictGet ((send_email_to_telegram g mailbox (some tok) status value st).1.email_store) token =
        none ∧
      ∀ r rest ai,
        suggest_response ((send_email_to_telegram g mailbox (some tok) status value st).1)
            (token :: r :: rest) ai =
          ((send_email_to_telegram g mailbox (some tok) status value st).1,
            CmdResult.invalidEmail invalidEmailMsg) := by
  have hstore := send_email_store_on_success g mailbox tok status value emails st htok hf hne
  rw [hstore]
  refine ⟨dictKeys_fillStore g emails, fillStore_map_snd g emails, ?_⟩
  intro token htoken
  have hnone : dictGet (fillStore g emails) token = none := by
    rw [dictGet_eq_none_iff, dictKeys_fillStore]
    exact htoken
  exact ⟨hnone, fun r rest ai => suggest_not_found _ token r rest ai hnone⟩

/-- Claim C2 witness: the amended theorem applied to the six-email batch. -/
theorem C2_handles_witness :
    dictKeys ((send_email_to_telegram (fun s => s) mb (some "tok") 200 emails6 st0).1.email_store) =
      (List.range' 1 (min 5 emails6.length)).map toString ∧
    ((send_email_to_telegram (fun s => s) mb (some "tok") 200 emails6 st0).1.email_store).map Prod.snd =
      (emails6.take 5).map (storeEntry (fun s => s)) ∧
    ∀ token, token ∉ (List.range' 1 (min 5 emails6.length)).map toString →
      dictGet ((send_email_to_telegram (fun s => s) mb (some "tok") 200 emails6 st0).1.email_store) token =
        none ∧
      ∀ r rest ai,
        suggest_response ((send_email_to_telegram (fun s => s) mb (some "tok") 200 emails6 st0).1)
            (token :: r :: rest) ai =
          ((send_email_to_telegram (fun s => s) mb (some "tok") 200 emails6 st0).1,
            CmdResult.invalidEmail invalidEmailMsg) :=
  C2_handles_are_one_to_min_five (fun s => s) mb "tok" 200 emails6 emails6 st0
    (by decide) rfl (by decide)

/-- Claim C3: whenever `fetch_unread_emails` returns a result list, an email
is in it exactly when it is in the provider's `value` array and its sender
address differs from the configured mailbox address: self mail never appears,
every other message is kept. -/
theorem C3_self_mail_excluded (mailbox : String) (status : Nat) (value result : List Email)
    (h : fetch_unread_emails mailbox status value = some result) :
    ∀ email, email ∈ result ↔ (email ∈ value ∧ email.fromAddress ≠ some mailbox) := by
  by_cases hs : status = 200
  · simp only [fetch_unread_emails, hs, if_pos, Option.some.injEq] at h
    subst h
    intro email
    simp [List.mem_filter, bne_iff_ne, and_comm]
  · simp [fetch_unread_emails, hs] at h

/-- Claim C3 witness: fetching a value array holding one customer email and
one self mail keeps the customer email and drops the self mail. -/
theorem C3_self_mail_witness :
    (eA ∈ [eA] ↔ (eA ∈ [eA, eSelf] ∧ eA.fromAddress ≠ some mb)) ∧
    (eSelf ∈ [eA] ↔ (eSelf ∈ [eA, eSelf] ∧ eSelf.fromAddress ≠ some mb)) :=
  ⟨C3_self_mail_excluded mb 200 [eA, eSelf] [eA] rfl eA,
    C3_self_mail_excluded mb 200 [eA, eSelf] [eA] rfl eSelf⟩

/-- Claim C4: an `/improve_response` for a handle with no stored draft
returns the user-visible no-draft error directing to suggest first, and both
dictionaries are returned unchanged; the result is the same for every
possible provider response `ai`, so no provider call can influence it. -/
theorem C4_refine_without_draft_rejected (st : BotState) (email_index r : String)
    (rest : List String) (ai : AIResponse)
    (h : dictGet st.ai_responses email_index = none) :
    improve_response st (email_index :: r :: rest) ai = (st, CmdResult.noDraft noDraftMsg) :=
  improve_not_found st email_index r rest ai h

/-- Claim C4 witness: refining handle 1 right after a fresh fetch (no suggest
yet) is rejected and leaves the state unchanged. -/
theorem C4_refine_witness :
    improve_response st1 ["1", "be", "polite"] aiOK = (st1, CmdResult.noDraft noDraftMsg) :=
  C4_refine_without_draft_rejected st1 "1" "be" ["polite"] aiOK rfl

/-- Claim C5 counterexample: a success (status 200) response whose `choices`
array is empty makes `generate_ai_response` raise an `IndexError` out of the
call — it does not return the marked fallback string. -/
theorem C5_counterexample :
    generate_ai_response "p" { status := 200, choices := some [] } =
      Except.error "IndexError: list index out of range" :=
  rfl

/-- Claim C5 (amended): the fallback string is returned on every non-success
status; on a success (200) response the completion is indexed unguarded, so
each way the completion field can be missing — no `choices` key, an empty
`choices` array, a missing `message` key, a missing `content` key — raises a
`KeyError`/`IndexError` out of the call, while a present completion is
returned escaped, an empty completion therefore as the empty string, which is
not the fallback. -/
theorem C5_fallback_only_on_non_success (prompt : String) (r : AIResponse) :
    (r.status ≠ 200 → generate_ai_response prompt r = Except.ok aiFallback) ∧
    (r.status = 200 → r.choices = none →
      generate_ai_response prompt r = Except.error "KeyError: choices") ∧
    (r.status = 200 → r.choices = some [] →
      generate_ai_response prompt r = Except.error "IndexError: list index out of range") ∧
    (∀ choices, r.status = 200 → r.choices = some ({ message := none } :: choices) →
      generate_ai_response prompt r = Except.error "KeyError: message") ∧
    (∀ choices, r.status = 200 →
      r.choices = some ({ message := some { content := none } } :: choices) →
      generate_ai_response prompt r = Except.error "KeyError: content") ∧
    (∀ text choices, r.status = 200 →
      r.choices = some ({ message := some { content := some text } } :: choices) →
      generate_ai_response prompt r = Except.ok (escapeHtml text)) ∧
    (escapeHtml "" = "" ∧ aiFallback ≠ "") := by
  refine ⟨fun h => ?_, fun h1 h2 => ?_, fun h1 h2 => ?_, fun choices h1 h2 => ?_,
    fun choices h1 h2 => ?_, fun text choices h1 h2 => ?_, rfl, by decide⟩
  · simp [generate_ai_response, h]
  · simp [generate_ai_response, h1, h2]
  · simp [generate_ai_response, h1, h2]
  · simp [generate_ai_response, h1, h2]
  · simp [generate_ai_response, h1, h2]
  · simp [generate_ai_response, h1, h2]

/-- Claim C5 witness: a 500 status yields the fallback string. -/
theorem C5_fallback_witness :
    generate_ai_response "p" { status := 500, choices := none } = Except.ok aiFallback :=
  (C5_fallback_only_on_non_success "p" { status := 500, choices := none }).1 (by decide)

set_option maxRecDepth 4000 in
/-- Claim C6 counterexample: the per-email notification built for an email
whose subject is `<b>hello</b>` differs from the spec-mandated message in
which user fields are escaped — the subject's metacharacters reach the
HTML-mode payload unescaped. -/
theorem C6_counterexample :
    buildEmailMessage (fun s => s) 1 eMeta ≠ buildEmailMessageSpec (fun s => s) 1 eMeta :=
  fun h => absurd (congrArg String.length h) (by decide)

set_option maxRecDepth 4000 in
/-- Claim C6 (amended): escaping is inconsistent rather than uniform — the AI
draft is escaped when generated, `send_to_telegram` escapes its whole message
(the literal markup included, contradicting the unescaped-markup clause), and
the per-email notification concatenates subject, sender name, sender address
and body preview unescaped with the literal markup. -/
theorem C6_escaping_is_partial :
    (∀ message, send_to_telegram_text message = escapeHtml message) ∧
    (∀ prompt text choices,
      generate_ai_response prompt
          { status := 200, choices := some ({ message := some { content := some text } } :: choices) } =
        Except.ok (escapeHtml text)) ∧
    buildEmailMessage (fun s => s) 1 eMeta ≠ buildEmailMessageSpec (fun s => s) 1 eMeta :=
  ⟨fun _ => rfl, fun _ _ _ => rfl,
    fun h => absurd (congrArg String.length h) (by decide)⟩

/-- Claim C7 counterexample: a 500 provider response yields `none` from the
fetch — no error value carrying the provider's status or message — and the
refresh workflow sends the operator exactly the same no-unread-emails notice
as a successful fetch of zero messages: the two cases are not distinct. -/
theorem C7_counterexample :
    fetch_unread_emails mb 500 [eA] = none ∧
    (send_email_to_telegram (fun s => s) mb (some "tok") 500 [eA] st0).2 = [noEmailsNotice] ∧
    (send_email_to_telegram (fun s => s) mb (some "tok") 200 ([] : List Email) st0).2 =
      [noEmailsNotice] :=
  ⟨rfl, rfl, rfl⟩

/-- Claim C7 (amended): on every non-success status the fetch returns `none`,
carrying no status or message, and the workflow renders it with the same
notice as a success with zero unread messages, so failure and emptiness are
not operator-distinguishable. -/
theorem C7_failure_and_empty_collapse (g : String → String) (mailbox tok : String)
    (status : Nat) (value : List Email) (st : BotState)
    (htok : tok ≠ "") (h : status ≠ 200) :
    fetch_unread_emails mailbox status value = none ∧
    (send_email_to_telegram g mailbox (some tok) status value st).2 = [noEmailsNotice] ∧
    (send_email_to_telegram g mailbox (some tok) 200 ([] : List Email) st).2 = [noEmailsNotice] := by
  have hf : fetch_unread_emails mailbox status value = none := by
    simp [fetch_unread_emails, h]
  refine ⟨hf, ?_, ?_⟩
  · simp [send_email_to_telegram, hf, htok]
  · simp [send_email_to_telegram, fetch_unread_emails, htok]

/-- Claim C7 witness: the amended theorem at a concrete failed fetch. -/
theorem C7_collapse_witness :
    fetch_unread_emails mb 503 [eB] = none ∧
    (send_email_to_telegram (fun s => s) mb (some "tok") 503 [eB] st0).2 = [noEmailsNotice] ∧
    (send_email_to_telegram (fun s => s) mb (some "tok") 200 ([] : List Email) st0).2 =
      [noEmailsNotice] :=
  C7_failure_and_empty_collapse (fun s => s) mb "tok" 503 [eB] st0 (by decide) (by decide)

/-- Claim C8 counterexample: for a two-email batch the handler's step trace
interleaves an `await` of the chat send between the two store insertions, so
a suspension point does lie between clearing the batch and inserting its last
entry. -/
theorem C8_counterexample :
    sendEmailSteps mb (some "tok") 200 [eA, eB] =
      [Step.clearStore, Step.insertEntry "1", Step.awaitSend,
        Step.insertEntry "2", Step.awaitSend] ∧
    hasSuspensionBeforeInsert (sendEmailSteps mb (some "tok") 200 [eA, eB]) = true :=
  ⟨rfl, rfl⟩

/-- Claim C8 (amended): whenever the filtered fetch result has at least two
messages, the handler's trace contains a suspension point that is followed by
a later store insertion — the chat send is awaited inside the fill loop, so
batch replacement is not atomic and an interleaved reader can observe a
partially filled batch. -/
theorem C8_suspension_between_inserts (mailbox tok : String) (status : Nat)
    (value : List Email) (a b : Email) (t : List Email) (htok : tok ≠ "")
    (hf : fetch_unread_emails mailbox status value = some (a :: b :: t)) :
    hasSuspensionBeforeInsert (sendEmailSteps mailbox (some tok) status value) = true := by
  have h5 : (a :: b :: t).take 5 = a :: b :: t.take 3 := rfl
  simp [sendEmailSteps, hf, htok, h5, enumerate1, hasSuspensionBeforeInsert,
    Step.isSuspension, Step.isInsert]

/-- Claim C8 witness: the amended theorem at a concrete two-email fetch. -/
theorem C8_suspension_witness :
    hasSuspensionBeforeInsert (sendEmailSteps mb (some "tk") 200 [eA, eB]) = true :=
  C8_suspension_between_inserts mb "tk" 200 [eA, eB] eA eB [] (by decide) rfl

/-- Claim C9: a fetch that obtains no usable result — no access token, an
empty (falsy) token string, a non-success provider response, or zero unread
messages — returns the state unchanged, so the previous batch and its drafts
stay intact; and no fetch whatsoever touches `ai_responses`. -/
theorem C9_unusable_fetch_preserves_state (g : String → String) (mailbox : String)
    (tok : Option String) (status : Nat) (value : List Email) (st : BotState) :
    ((tok = none ∨ tok = some "" ∨ fetch_unread_emails mailbox status value = none ∨
        fetch_unread_emails mailbox status value = some []) →
      (send_email_to_telegram g mailbox tok status value st).1 = st) ∧
    (send_email_to_telegram g mailbox tok status value st).1.ai_responses = st.ai_responses := by
  constructor
  · rintro (rfl | rfl | h | h)
    · rfl
    · simp [send_email_to_telegram]
    · cases tok with
      | none => rfl
      | some t =>
        by_cases ht : t = ""
        · simp [send_email_to_telegram, ht]
        · simp [send_email_to_telegram, ht, h]
    · cases tok with
      | none => rfl
      | some t =>
        by_cases ht : t = ""
        · simp [send_email_to_telegram, ht]
        · simp [send_email_to_telegram, ht, h]
  · cases tok with
    | none => rfl
    | some t =>
      by_cases ht : t = ""
      · simp [send_email_to_telegram, ht]
      · cases hf : fetch_unread_emails mailbox status value with
        | none => simp [send_email_to_telegram, ht, hf]
        | some emails =>
          by_cases he : emails = []
          · simp [send_email_to_telegram, ht, hf, he]
          · simp [send_email_to_telegram, ht, hf, he]

/-- Claim C9 witness: when token acquisition returns nothing, the state with
an existing batch and draft is fully preserved. -/
theorem C9_preserves_witness :
    (send_email_to_telegram (fun s => s) mb none 200 [eA] st2).1 = st2 :=
  (C9_unusable_fetch_preserves_state (fun s => s) mb none 200 [eA] st2).1 (Or.inl rfl)

/-- Claim C10: command handles are matched as raw token strings against the
keys `toString 1 .. toString (min 5 N)` of the current batch: any token
outside that key list — whatever number it denotes — makes `/suggest_response`
reply with the invalid-number error and leave the state unchanged, and (when
it is also absent from `ai_responses`) makes `/improve_response` reply with
the no-draft error and leave the state unchanged. -/
theorem C10_handles_matched_as_raw_strings (g : String → String) (emails : List Email)
    (drafts : Dict String) (token r : String) (rest : List String) (ai : AIResponse)
    (hs : token ∉ (List.range' 1 (min 5 emails.length)).map toString) :
    suggest_response { email_store := fillStore g emails, ai_responses := drafts }
        (token :: r :: rest) ai =
      ({ email_store := fillStore g emails, ai_responses := drafts },
        CmdResult.invalidEmail invalidEmailMsg) ∧
    (token ∉ dictKeys drafts →
      improve_response { email_store := fillStore g emails, ai_responses := drafts }
          (token :: r :: rest) ai =
        ({ email_store := fillStore g emails, ai_responses := drafts },
          CmdResult.noDraft noDraftMsg)) := by
  have hnone : dictGet (fillStore g emails) token = none := by
    rw [dictGet_eq_none_iff, dictKeys_fillStore]
    exact hs
  constructor
  · exact suggest_not_found _ token r rest ai hnone
  · intro hd
    exact improve_not_found _ token r rest ai ((dictGet_eq_none_iff drafts token).mpr hd)

/-- Claim C10 witness: `"01"` is the zero-padded decimal form of the stored
handle 1 but not its canonical string, so both commands reject it even though
the batch holds handle 1. -/
theorem C10_raw_string_witness :
    ("0" ++ toString 1 = "01") ∧
    (suggest_response { email_store := fillStore (fun s => s) [eA], ai_responses := [] }
        ["01", "hi"] aiOK =
      ({ email_store := fillStore (fun s => s) [eA], ai_responses := [] },
        CmdResult.invalidEmail invalidEmailMsg) ∧
    ("01" ∉ dictKeys ([] : Dict String) →
      improve_response { email_store := fillStore (fun s => s) [eA], ai_responses := [] }
          ["01", "hi"] aiOK =
        ({ email_store := fillStore (fun s => s) [eA], ai_responses := [] },
          CmdResult.noDraft noDraftMsg))) :=
  ⟨rfl, C10_handles_matched_as_raw_strings (fun s => s) [eA] [] "01" "hi" [] aiOK (by decide)⟩

end SupportBot
